import Mathlib

/-
Verification of the rk_rom_kitchen build-pipeline core against its
natural-language specification.

The development is a shallow embedding of the Python sources under
src/rk_rom_kitchen/app/core/.  Pure logic is translated into executable
Lean functions; filesystem state, external-tool outcomes and the
cancellation token are passed explicitly as data.  Machine details that
no claim depends on (timestamps, elapsed milliseconds, byte encodings of
log lines) are abstracted, and each such abstraction is noted next to
the definition it concerns.
-/

set_option maxHeartbeats 1000000
set_option maxRecDepth 8192

namespace RkRomKitchen

/-- Outcome kind of a pipeline or engine operation.  task_defs.py is not under
src/; the shape is modelled from the spec (section 6): a tagged union over
Success / Error / Cancelled carrying an optional message and a list of
artifact paths.  Elapsed milliseconds are abstracted away (no claim
mentions timing). -/
inductive TRKind where
  | success
  | error
  | cancelled
deriving DecidableEq, Repr

/-- TaskResult envelope, the single return shape of every pipeline step and
engine operation (modelled from the spec, section 6, and the constructor
calls in pipeline.py / partition_image_engine.py). -/
structure TaskResult where
  kind : TRKind
  message : Option String
  artifacts : List String
deriving DecidableEq, Repr

def TaskResult.ok (r : TaskResult) : Bool :=
  match r.kind with
  | TRKind.success => true
  | _ => false

def TaskResult.err (msg : String) : TaskResult :=
  ⟨TRKind.error, some msg, []⟩

def TaskResult.succ (msg : String) (arts : List String) : TaskResult :=
  ⟨TRKind.success, some msg, arts⟩

def TaskResult.cancelledR : TaskResult :=
  ⟨TRKind.cancelled, none, []⟩

/-- Typed project configuration record.  project_store.py is not under src/;
the field list is modelled from the spec (section 3) restricted to the
fields that the pipeline steps embedded here read or write.  update_config
semantics (spec 4.l): only the named fields change. -/
structure ProjectConfig where
  imported : Bool
  extracted : Bool
  patched : Bool
  built : Bool
  input_file : Option String
  rom_type : Option String
  input_type : Option String
deriving DecidableEq, Repr

def defaultConfig : ProjectConfig :=
  ⟨false, false, false, false, none, none, none⟩

/- ===================== detect.py ===================== -/

/-- ROM classification tags, from detect.py (class RomType). -/
inductive RomType where
  | UPDATE_IMG
  | RELEASE_UPDATE_IMG
  | SUPER_IMG
  | SPARSE_IMG
  | RAW_IMG
  | UNKNOWN
deriving DecidableEq, Repr

/-- String value of each enum member, from detect.py. -/
def RomType.value : RomType → String
  | RomType.UPDATE_IMG => "update.img"
  | RomType.RELEASE_UPDATE_IMG => "release_update.img"
  | RomType.SUPER_IMG => "super.img"
  | RomType.SPARSE_IMG => "sparse.img"
  | RomType.RAW_IMG => "raw.img"
  | RomType.UNKNOWN => "unknown"

/-- The three Rockchip firmware-wrapper magics RKFW / RKAF / RKIM as byte
lists, from detect.py (ROCKCHIP_MAGICS). -/
def ROCKCHIP_MAGICS : List (List Nat) :=
  [[0x52, 0x4B, 0x46, 0x57], [0x52, 0x4B, 0x41, 0x46], [0x52, 0x4B, 0x49, 0x4D]]

/-- Android sparse magic 0xED26FF3A little-endian, from detect.py. -/
def SPARSE_MAGIC : List Nat :=
  [0x3a, 0xff, 0x26, 0xed]

/-- detect.py is_rockchip_header: header shorter than 4 bytes is rejected,
otherwise the first four bytes are compared against the three magics. -/
def is_rockchip_header (header : List Nat) : Bool :=
  if header.length < 4 then false
  else ROCKCHIP_MAGICS.contains (header.take 4)

/-- detect.py is_sparse_header. -/
def is_sparse_header (header : List Nat) : Bool :=
  if header.length < 4 then false
  else header.take 4 == SPARSE_MAGIC

/-- A file as the detector sees it: existence, the first (up to) 16 header
bytes returned by read_file_header, and the file name. -/
structure FileModel where
  fileExists : Bool
  header : List Nat
  name : String
deriving DecidableEq, Repr

/-- Bool test that pat occurs as a contiguous sublist of l. -/
def listInfix : List Char → List Char → Bool
  | pat, [] => pat.isEmpty
  | pat, c :: rest => pat.isPrefixOf (c :: rest) || listInfix pat rest

/-- Python substring containment (pat in s), on character lists. -/
def containsSub (s : List Char) (pat : String) : Bool :=
  listInfix pat.toList s

/-- Python str.lower, restricted to ASCII (every filename a claim mentions is
ASCII; Char.toLower lowers exactly the ASCII range). -/
def lowerName (s : String) : List Char :=
  s.toList.map Char.toLower

/-- Python str.endswith on a character list. -/
def endsWithL (s : List Char) (suffix : String) : Bool :=
  suffix.toList.isSuffixOf s

/-- detect.py detect_rom_type: header magics first (Rockchip, then sparse),
then lowercase-filename patterns, then the raw-image default for .img,
else unknown. -/
def detect_rom_type (f : FileModel) : RomType :=
  if !f.fileExists then RomType.UNKNOWN
  else if is_rockchip_header f.header then RomType.UPDATE_IMG
  else if is_sparse_header f.header then RomType.SPARSE_IMG
  else
    let filename := lowerName f.name
    if containsSub filename "release_update" || containsSub filename "release-update" then
      RomType.RELEASE_UPDATE_IMG
    else if containsSub filename "update" && endsWithL filename ".img" then
      RomType.UPDATE_IMG
    else if containsSub filename "super" && endsWithL filename ".img" then
      RomType.SUPER_IMG
    else if endsWithL filename ".img" then
      RomType.RAW_IMG
    else
      RomType.UNKNOWN

/-- detect.py map_rom_type_to_input_type. -/
def map_rom_type_to_input_type : RomType → String
  | RomType.UPDATE_IMG => "rockchip_update"
  | RomType.RELEASE_UPDATE_IMG => "rockchip_update"
  | RomType.SUPER_IMG => "android_super"
  | RomType.SPARSE_IMG => "partition_image"
  | RomType.RAW_IMG => "partition_image"
  | RomType.UNKNOWN => "partition_image"

example : detect_rom_type ⟨true, [0x52, 0x4B, 0x46, 0x57, 0, 0], "super.img"⟩ = RomType.UPDATE_IMG := by decide

example : detect_rom_type ⟨true, [0, 0, 0, 0], "super.img"⟩ = RomType.SUPER_IMG := by
  decide

/- ===================== dirty_tracker.py ===================== -/

/-- A persisted JSON document as dirty_tracker.py sees it: the file may be
absent, unparseable, or parsed to a value. -/
inductive JsonFile (α : Type) where
  | missing
  | corrupt
  | parsed (value : α)
deriving DecidableEq, Repr

/-- dirty_tracker.py load_dirty: missing or unparseable dirty.json loads as
the empty map.  A Python dict with string keys is modelled as an
association list (insertion order preserved, keys unique by construction
of assocSet). -/
def load_dirty (df : JsonFile (List (String × Bool))) : List (String × Bool) :=
  match df with
  | JsonFile.missing => []
  | JsonFile.corrupt => []
  | JsonFile.parsed m => m

/-- Python dict assignment d[k] = v on an association list: replace in place
if the key is present, else append. -/
def assocSet (l : List (String × Bool)) (k : String) (v : Bool) : List (String × Bool) :=
  match l with
  | [] => [(k, v)]
  | (k₀, v₀) :: rest =>
      if k₀ == k then (k, v) :: rest
      else (k₀, v₀) :: assocSet rest k v

/-- dirty_tracker.py is_dirty: flags.get(partition_name, True). -/
def is_dirty (df : JsonFile (List (String × Bool))) (name : String) : Bool :=
  ((load_dirty df).lookup name).getD true

/-- Snapshot triple of an extracted tree, from dirty_tracker.py
compute_source_snapshot.  newest_mtime is a float in Python; it is
modelled as a Nat timestamp, which preserves the only operations the code
performs on it (max and equality comparison). -/
structure Snapshot where
  file_count : Nat
  total_size : Nat
  newest_mtime : Nat
deriving DecidableEq, Repr

/-- The on-disk state the dirty tracker owns: extract/dirty.json and
extract/source_snapshot.json. -/
structure TrackerState where
  dirtyFile : JsonFile (List (String × Bool))
  snapFile : JsonFile (List (String × Snapshot))
deriving DecidableEq, Repr

/-- dirty_tracker.py load_snapshots. -/
def load_snapshots (sf : JsonFile (List (String × Snapshot))) : List (String × Snapshot) :=
  match sf with
  | JsonFile.missing => []
  | JsonFile.corrupt => []
  | JsonFile.parsed m => m

/-- dirty_tracker.py set_dirty: load the dirty map, assign, save.  Only
dirty.json changes; the snapshot file is untouched. -/
def set_dirty (st : TrackerState) (name : String) (d : Bool) : TrackerState :=
  { st with dirtyFile := JsonFile.parsed (assocSet (load_dirty st.dirtyFile) name d) }

/-- The field-by-field comparison in dirty_tracker.py
check_partition_changed (current vs saved triple). -/
def snapshotChanged (current saved : Snapshot) : Bool :=
  current.file_count != saved.file_count
    || current.total_size != saved.total_size
    || current.newest_mtime != saved.newest_mtime

/-- dirty_tracker.py check_partition_changed: no saved snapshot means
changed (safe default); otherwise recompute the triple for the partition
tree (passed in as the function current, abstracting the directory walk)
and compare field by field. -/
def check_partition_changed (current : String → Snapshot) (st : TrackerState)
    (name : String) : Bool :=
  match (load_snapshots st.snapFile).lookup name with
  | none => true
  | some saved => snapshotChanged (current name) saved

/-- dirty_tracker.py auto_detect_dirty: if changed, set the dirty flag to
true and return true; otherwise return the existing flag and leave all
state untouched.  Returns (result, state after the call). -/
def auto_detect_dirty (current : String → Snapshot) (st : TrackerState)
    (name : String) : Bool × TrackerState :=
  if check_partition_changed current st name then
    (true, set_dirty st name true)
  else
    (is_dirty st.dirtyFile name, st)

/- ===================== AVB patcher (spec-modelled) ===================== -/

/-- The four-byte AVB tag used by the fallback blob (spec 4.j). -/
def AVB0_TAG : List Nat :=
  [0x41, 0x56, 0x42, 0x30]

/-- Outcome of one external signing-tool invocation: exit code and the
bytes it wrote to the requested output path, if any. -/
structure AvbToolOutcome where
  exitCode : Int
  output : Option (List Nat)
deriving DecidableEq, Repr

/-- Modelled from the spec: the AVB patcher implementation (avb_manager.py)
is not under src/, only its tests are.  Spec 4.j: the fallback is an
internally constructed minimal valid metadata blob beginning with the
four-byte tag AVB0; the bytes after the tag are abstracted as zeros. -/
def avb_fallback_blob : List Nat :=
  AVB0_TAG ++ List.replicate 252 0

/-- Zero-pad content to exactly size bytes (spec 4.j: the final output file
must be zero-padded to the exact original size).  Content beyond size is
cut at size so that the final size is exact in every case. -/
def pad_to_size (content : List Nat) (size : Nat) : List Nat :=
  content.take size ++ List.replicate (size - content.length) 0

/-- Modelled from the spec: avb_manager.py (the AVB Patcher) is not under
src/.  Spec 4.j: for each target, invoke the external signing tool; if the
tool exits non-zero or the output is absent, fall back to the internal
AVB0 blob; in every case the final output file is zero-padded to the
exact original size. -/
def patch_one_vbmeta (orig : List Nat) (tool : AvbToolOutcome) : List Nat :=
  let content :=
    match tool.output with
    | none => avb_fallback_blob
    | some produced => if tool.exitCode == 0 then produced else avb_fallback_blob
  pad_to_size content orig.length

example : (patch_one_vbmeta (List.replicate 300 7) ⟨1, none⟩).length = 300 := by decide

/- ===================== pipeline.py: patch ===================== -/

/-- The recognised patch toggle names, from pipeline.py (SUPPORTED_PATCHES). -/
def SUPPORTED_PATCHES : List String :=
  ["disable_avb", "magisk", "debloat", "disable_dm_verity"]

/-- Abstract outcomes of the two sub-patchers pipeline_patch can invoke
(avb_manager.disable_avb_only and magisk_patcher.patch_boot_with_magisk);
their bodies are external to this step. -/
structure PatchEnv where
  avbResult : TaskResult
  magiskResult : TaskResult
deriving DecidableEq, Repr

/-- Observable outcome of pipeline_patch: the returned TaskResult, the
sub-patchers invoked in order, the configuration after the call, and
whether the PATCHED_OK.txt marker was written. -/
structure PatchOutcome where
  result : TaskResult
  invoked : List String
  config : ProjectConfig
  markerWritten : Bool
deriving DecidableEq, Repr

/-- Python truthiness of patches.get(k) for a Bool-valued toggle map:
absent key is falsy. -/
def toggleOn (patches : List (String × Bool)) (k : String) : Bool :=
  (patches.lookup k).getD false

/-- pipeline.py pipeline_patch.  The toggle dict is modelled as an
association list in iteration order; patches=None at the call site becomes
the empty list (patches or {} in the source).  The validation loop returns
on the first entry whose value is truthy and whose key is not supported;
only then are the enabled sub-patchers run, their failures collected, and
on success patched=true is persisted and the PATCHED_OK.txt marker
written.  Message texts keep the source wording with the quote characters
around the key name dropped. -/
def pipeline_patch (cfg : ProjectConfig) (patches : List (String × Bool))
    (env : PatchEnv) (cancelled : Bool) : PatchOutcome :=
  if cancelled then ⟨TaskResult.cancelledR, [], cfg, false⟩
  else
    match patches.find? (fun pv => pv.2 && !(SUPPORTED_PATCHES.contains pv.1)) with
    | some pv =>
        ⟨TaskResult.err ("Patch " ++ pv.1 ++ " chưa được hỗ trợ trong phiên bản này"),
         [], cfg, false⟩
    | none =>
        let results : List (String × TaskResult) :=
          (if toggleOn patches "disable_avb" then [("avb", env.avbResult)] else [])
            ++ (if toggleOn patches "magisk" then [("magisk", env.magiskResult)] else [])
        let failed := (results.filter (fun nr => !(nr.2.ok))).map Prod.fst
        if failed.isEmpty then
          ⟨TaskResult.succ ("Applied " ++ toString results.length ++ " patches") [],
           results.map Prod.fst, { cfg with patched := true }, true⟩
        else
          ⟨TaskResult.err ("Patch failed: " ++ String.intercalate ", " failed),
           results.map Prod.fst, cfg, false⟩

/- ===================== pipeline.py: extract ===================== -/

/-- Abstract environment of pipeline_extract: whether the input file
resolves to an existing file, and the outcome of the engine the step
routes to (rockchip_update / android_super / partition_image; the routing
itself only selects which engine produced this result). -/
structure ExtractEnv where
  inputAvailable : Bool
  engineResult : TaskResult
deriving DecidableEq, Repr

/-- Observable outcome of pipeline_extract. -/
structure ExtractOutcome where
  result : TaskResult
  config : ProjectConfig
  markerWritten : Bool
deriving DecidableEq, Repr

/-- pipeline.py pipeline_extract: cancellation check at entry, input-file
existence check, then the routed engine runs; exactly when its result is
ok, extracted=true is persisted and the EXTRACTED_OK.txt marker written.
No other configuration field is touched on any path. -/
def pipeline_extract (cfg : ProjectConfig) (env : ExtractEnv)
    (cancelled : Bool) : ExtractOutcome :=
  if cancelled then ⟨TaskResult.cancelledR, cfg, false⟩
  else if !env.inputAvailable then
    ⟨TaskResult.err "Input file không tồn tại", cfg, false⟩
  else if env.engineResult.ok then
    ⟨env.engineResult, { cfg with extracted := true }, true⟩
  else
    ⟨env.engineResult, cfg, false⟩

/- ===================== pipeline.py: import ===================== -/

/-- The 10 MB copy chunk, from pipeline.py (chunk_size = 1024*1024*10). -/
def CHUNK_SIZE : Nat :=
  1024 * 1024 * 10

/-- The cooperative cancellation token (threading.Event): once set it stays
set.  cancelAt = some j models a token that is set from the j-th
cancellation check onwards; none models a token never set.  Check index 0
is the check at the top of the step, indices 1, 2, ... are the checks at
the top of each copy-loop iteration. -/
def cancelCheck (cancelAt : Option Nat) (i : Nat) : Bool :=
  match cancelAt with
  | some j => decide (j ≤ i)
  | none => false

/-- The chunked copy loop of pipeline_import: at each iteration the cancel
token is checked first (none = cancelled, destination unlinked), then a
chunk is read; an empty read ends the loop with the bytes written so
far. -/
def copyLoop (cancelAt : Option Nat) (i : Nat) (copied remaining : List Nat) :
    Option (List Nat) :=
  if cancelCheck cancelAt i then none
  else
    match remaining with
    | [] => some copied
    | r :: rs =>
        copyLoop cancelAt (i + 1) (copied ++ (r :: rs).take CHUNK_SIZE)
          ((r :: rs).drop CHUNK_SIZE)
termination_by remaining.length
decreasing_by
  simp [List.length_drop, CHUNK_SIZE]
  omega

/-- Number of loop iterations the chunked copy performs on this content
before the final empty read. -/
def chunksCount (remaining : List Nat) : Nat :=
  match remaining with
  | [] => 0
  | r :: rs => chunksCount ((r :: rs).drop CHUNK_SIZE) + 1
termination_by remaining.length
decreasing_by
  simp [List.length_drop, CHUNK_SIZE]
  omega

/-- Observable outcome of pipeline_import: the returned TaskResult, the
destination file in project/in (none = absent, some bytes = present with
that content), and the configuration after the call. -/
structure ImportOutcome where
  result : TaskResult
  destState : Option (List Nat)
  config : ProjectConfig
deriving DecidableEq, Repr

/-- pipeline.py pipeline_import: cancel check at entry, source existence
check, ROM-type detection, chunked copy with a cancel check between
chunks (on cancellation the partial destination is unlinked), then the
four config fields imported / input_file / rom_type / input_type are
persisted together.  Progress logging is abstracted away. -/
def pipeline_import (cfg : ProjectConfig) (src : FileModel)
    (content : List Nat) (cancelAt : Option Nat) : ImportOutcome :=
  if cancelCheck cancelAt 0 then ⟨TaskResult.cancelledR, none, cfg⟩
  else if !src.fileExists then
    ⟨TaskResult.err ("File không tồn tại: " ++ src.name), none, cfg⟩
  else
    let rom := detect_rom_type src
    let dest := "in/" ++ src.name
    match copyLoop cancelAt 1 [] content with
    | none => ⟨TaskResult.cancelledR, none, cfg⟩
    | some bytes =>
        ⟨TaskResult.succ "Import thành công" [dest], some bytes,
         { cfg with
             imported := true,
             input_file := some dest,
             rom_type := some rom.value,
             input_type := some (map_rom_type_to_input_type rom) }⟩

/- ===================== partition_image_engine.py: repack ===================== -/

/-- The fields repack_partition_image reads from
extract/partition_metadata.json (meta.get with defaults). -/
structure RepackMeta where
  name : Option String
  fs_type : Option String
  size : Option Nat
deriving DecidableEq, Repr

/-- External environment of one repack run: which tools the registry
resolves, and for each tool that may run, its exit code and the bytes it
writes to the path it was given (none = no file produced). -/
structure RepackEnv where
  make_ext4fs_tool : Option String
  mkfs_erofs_tool : Option String
  img2simg_tool : Option String
  ext4_exit : Int
  ext4_out : Option (List Nat)
  erofs_exit : Int
  erofs_out : Option (List Nat)
  sparse_exit : Int
  sparse_out : Option (List Nat)
deriving DecidableEq, Repr

/-- Observable outcome of repack_partition_image: the returned TaskResult,
the external tools invoked in order, and the files present in the output
directory afterwards (path, bytes). -/
structure RepackOutcome where
  result : TaskResult
  toolsInvoked : List String
  files : List (String × List Nat)
deriving DecidableEq, Repr

/-- The tail of repack_partition_image (lines 349-369): optional
sparse conversion, then the success result.  If output_sparse is set and
the raw output exists, img2simg is looked up; when available it runs to
<name>_patched_sparse.img, and only on exit 0 with the file present is
the raw file unlinked and the artifact switched to the sparse path; in
every other case the raw path is kept silently.  The success message
keeps the source wording with the human-readable size abstracted. -/
def repack_finish (pname : String) (output_sparse : Bool) (env : RepackEnv)
    (invoked : List String) (files : List (String × List Nat)) : RepackOutcome :=
  let output_path := "out/" ++ pname ++ "_patched.img"
  if output_sparse && ((files.lookup output_path).isSome) then
    match env.img2simg_tool with
    | none =>
        ⟨TaskResult.succ ("Repacked " ++ pname) [output_path], invoked, files⟩
    | some _ =>
        let sparse_path := "out/" ++ pname ++ "_patched_sparse.img"
        let invoked₁ := invoked ++ ["img2simg"]
        let files₁ :=
          match env.sparse_out with
          | some sb => files ++ [(sparse_path, sb)]
          | none => files
        if env.sparse_exit == 0 && ((files₁.lookup sparse_path).isSome) then
          ⟨TaskResult.succ ("Repacked " ++ pname) [sparse_path], invoked₁,
           files₁.filter (fun kv => kv.1 != output_path)⟩
        else
          ⟨TaskResult.succ ("Repacked " ++ pname) [output_path], invoked₁, files₁⟩
  else
    ⟨TaskResult.succ ("Repacked " ++ pname) [output_path], invoked, files⟩

/-- partition_image_engine.py repack_partition_image (lines 282-369).
metaFile is extract/partition_metadata.json; fsDirExists is the
extract/fs/<name> existence check; output paths are written relative to
the project root.  The dirtyState and originalBytes parameters are the
build-time environment the specification claims quantify over (the dirty
map and the original image bytes): this source function never reads
either of them, so they do not occur in the body. -/
def repack_partition_image (metaFile : JsonFile RepackMeta) (fsDirExists : Bool)
    (env : RepackEnv) (partition_arg : Option String) (output_sparse : Bool)
    (dirtyState : TrackerState) (originalBytes : Option (List Nat)) : RepackOutcome :=
  match metaFile with
  | JsonFile.missing =>
      ⟨TaskResult.err "Không tìm thấy metadata. Hãy extract trước.", [], []⟩
  | JsonFile.corrupt =>
      ⟨TaskResult.err "Lỗi đọc metadata", [], []⟩
  | JsonFile.parsed meta =>
      let pname := partition_arg.getD (meta.name.getD "partition")
      let fs_type := meta.fs_type.getD "unknown"
      if !fsDirExists then
        ⟨TaskResult.err ("Folder không tồn tại: extract/fs/" ++ pname), [], []⟩
      else
        let output_path := "out/" ++ pname ++ "_patched.img"
        if fs_type == "ext4" then
          match env.make_ext4fs_tool with
          | none => ⟨TaskResult.err "Tool make_ext4fs không tìm thấy", [], []⟩
          | some _ =>
              let files₀ :=
                match env.ext4_out with
                | some b => [(output_path, b)]
                | none => []
              if env.ext4_exit != 0 then
                ⟨TaskResult.err "make_ext4fs failed", ["make_ext4fs"], files₀⟩
              else
                repack_finish pname output_sparse env ["make_ext4fs"] files₀
        else if fs_type == "erofs" then
          match env.mkfs_erofs_tool with
          | none => ⟨TaskResult.err "Tool mkfs.erofs không tìm thấy", [], []⟩
          | some _ =>
              let files₀ :=
                match env.erofs_out with
                | some b => [(output_path, b)]
                | none => []
              if env.erofs_exit != 0 then
                ⟨TaskResult.err "mkfs.erofs failed", ["mkfs_erofs"], files₀⟩
              else
                repack_finish pname output_sparse env ["mkfs_erofs"] files₀
        else
          ⟨TaskResult.err ("Không hỗ trợ repack fs_type: " ++ fs_type), [], []⟩

/- ===================== helper lemmas ===================== -/

/-- Assignment followed by lookup on the same key yields the assigned
value. -/
theorem assocSet_lookup_self (l : List (String × Bool)) (k : String) (v : Bool) :
    (assocSet l k v).lookup k = some v := by
  induction l with
  | nil => simp [assocSet, List.lookup]
  | cons hd tl ih =>
      obtain ⟨k₀, v₀⟩ := hd
      by_cases h : k₀ == k
      · simp [assocSet, h, List.lookup]
      · have hne : k₀ ≠ k := by simpa using h
        have hk0 : (k₀ == k) = false := beq_eq_false_iff_ne.mpr hne
        have hk : (k == k₀) = false := beq_eq_false_iff_ne.mpr (Ne.symm hne)
        simp [assocSet, hk0, List.lookup, hk, ih]

/-- pad_to_size always produces exactly the requested size. -/
theorem pad_to_size_length (c : List Nat) (n : Nat) :
    (pad_to_size c n).length = n := by
  simp [pad_to_size, List.length_append, List.length_take, List.length_replicate]
  omega

/-- If the cancellation token fires at check index j and the chunked copy
performs a check at index j (the checks run at indices i, i+1, ...,
i + chunksCount remaining), the loop returns none: the destination is
unlinked and the copy reports cancellation. -/
theorem copyLoop_cancel_aux :
    ∀ (n : Nat) (remaining : List Nat) (j i : Nat) (copied : List Nat),
      remaining.length ≤ n → i ≤ j → j ≤ i + chunksCount remaining →
      copyLoop (some j) i copied remaining = none := by
  intro n
  induction n with
  | zero =>
      intro remaining j i copied hlen hij hji
      have h0 : remaining = [] := List.length_eq_zero.mp (Nat.le_zero.mp hlen)
      subst h0
      have hji' : j ≤ i := by
        simpa [chunksCount] using hji
      simp [copyLoop, cancelCheck, hji']
  | succ n ih =>
      intro remaining j i copied hlen hij hji
      match remaining with
      | [] =>
          have hji' : j ≤ i := by
            simpa [chunksCount] using hji
          simp [copyLoop, cancelCheck, hji']
      | r :: rs =>
          by_cases hc : j ≤ i
          · simp [copyLoop, cancelCheck, hc]
          · have hstep :
                copyLoop (some j) i copied (r :: rs) =
                  copyLoop (some j) (i + 1) (copied ++ (r :: rs).take CHUNK_SIZE)
                    ((r :: rs).drop CHUNK_SIZE) := by
              rw [copyLoop]
              simp [cancelCheck, hc]
            rw [hstep]
            apply ih
            · have hdl := List.length_drop CHUNK_SIZE (r :: rs)
              have hcs : 1 ≤ CHUNK_SIZE := by norm_num [CHUNK_SIZE]
              simp only [List.length_cons] at hlen hdl ⊢
              omega
            · omega
            · have hcc : chunksCount (r :: rs) =
                  chunksCount ((r :: rs).drop CHUNK_SIZE) + 1 := by
                rw [chunksCount]
              omega

/- ===================== claim theorems ===================== -/

/- ---- C7 ---- -/

/-- Claim C7 (confirmed).  Format detection by header magic has priority
over filename patterns: any existing file whose first four bytes are one
of the three firmware-wrapper magics RKFW / RKAF / RKIM is classified
UPDATE_IMG (the firmware wrapper, routed to rockchip_update) by
detect_rom_type, regardless of its filename — including a file named
super.img (see the witness). -/
theorem C7_magic_beats_filename (f : FileModel)
    (hex : f.fileExists = true)
    (hlen : 4 ≤ f.header.length)
    (hm : ROCKCHIP_MAGICS.contains (f.header.take 4) = true) :
    detect_rom_type f = RomType.UPDATE_IMG ∧
    map_rom_type_to_input_type (detect_rom_type f) = "rockchip_update" := by
  have hnl : ¬ f.header.length < 4 := Nat.not_lt.mpr hlen
  have hmem : f.header.take 4 ∈ ROCKCHIP_MAGICS := by simpa using hm
  have hr : is_rockchip_header f.header = true := by
    simp [is_rockchip_header, hnl, hmem]
  constructor
  · simp [detect_rom_type, hex, hr]
  · simp [detect_rom_type, hex, hr, map_rom_type_to_input_type]

/-- Claim C7 witness: a file whose header starts with RKFW but whose name
is super.img detects as the firmware wrapper. -/
theorem C7_witness :
    detect_rom_type ⟨true, [0x52, 0x4B, 0x46, 0x57, 0, 0, 0, 0], "super.img"⟩
      = RomType.UPDATE_IMG :=
  (C7_magic_beats_filename ⟨true, [0x52, 0x4B, 0x46, 0x57, 0, 0, 0, 0], "super.img"⟩
    rfl (by decide) (by decide)).1

/- ---- C8 ---- -/

/-- Claim C8 (confirmed).  For a partition name absent from the loaded
dirty map, is_dirty returns true; a missing dirty.json and an unparseable
dirty.json load as the empty map, so every name defaults to dirty there
as well. -/
theorem C8_dirty_default (df : JsonFile (List (String × Bool))) (name : String)
    (h : (load_dirty df).lookup name = none) :
    is_dirty df name = true ∧
    is_dirty (JsonFile.missing) name = true ∧
    is_dirty (JsonFile.corrupt) name = true := by
  refine ⟨?_, rfl, rfl⟩
  simp [is_dirty, h]

/-- Claim C8 witness: with a dirty map that tracks only system_a, the name
vendor_b is reported dirty. -/
theorem C8_witness :
    (load_dirty (JsonFile.parsed [("system_a", false)])).lookup "vendor_b" = none ∧
    is_dirty (JsonFile.parsed [("system_a", false)]) "vendor_b" = true :=
  ⟨by decide, (C8_dirty_default (JsonFile.parsed [("system_a", false)]) "vendor_b" (by decide)).1⟩

/- ---- C5 ---- -/

/-- Concrete dirty-tracker state for claim C5: system_a is tracked clean
and its saved snapshot triple is (1,1,1). -/
def stSnapEx : TrackerState :=
  ⟨JsonFile.parsed [("system_a", false)], JsonFile.parsed [("system_a", ⟨1, 1, 1⟩)]⟩

/-- Concrete recomputed-snapshot function for claim C5: the tree now
measures (2,2,2), differing from the saved triple. -/
def curSnapEx : String → Snapshot :=
  fun _ => ⟨2, 2, 2⟩

/-- Claim C5 counterexample.  With a saved snapshot (1,1,1) and a
recomputed triple (2,2,2), auto_detect_dirty returns true but the saved
snapshot is NOT replaced by the newly computed one: the snapshot file
still holds (1,1,1) after the call, refuting the claimed persistence of
the new snapshot. -/
theorem C5_counterexample :
    (auto_detect_dirty curSnapEx stSnapEx "system_a").1 = true ∧
    ¬ ((load_snapshots (auto_detect_dirty curSnapEx stSnapEx "system_a").2.snapFile).lookup "system_a"
        = some (curSnapEx "system_a")) := by
  constructor
  · decide
  · decide

/-- Claim C5 as amended (proved).  For every partition name with a saved
snapshot: if the recomputed triple differs, auto_detect_dirty sets the
dirty flag to true, returns true, and leaves the snapshot file unchanged
(it does not persist the new triple); if the triples are identical, it
returns the existing dirty flag and changes nothing. -/
theorem C5_auto_detect_amended (current : String → Snapshot) (st : TrackerState)
    (name : String) (saved : Snapshot)
    (hsnap : (load_snapshots st.snapFile).lookup name = some saved) :
    (snapshotChanged (current name) saved = true →
       auto_detect_dirty current st name = (true, set_dirty st name true) ∧
       is_dirty (set_dirty st name true).dirtyFile name = true ∧
       (set_dirty st name true).snapFile = st.snapFile) ∧
    (snapshotChanged (current name) saved = false →
       auto_detect_dirty current st name = (is_dirty st.dirtyFile name, st)) := by
  have hcheck : check_partition_changed current st name = snapshotChanged (current name) saved := by
    simp [check_partition_changed, hsnap]
  constructor
  · intro hch
    refine ⟨?_, ?_, rfl⟩
    · simp [auto_detect_dirty, hcheck, hch]
    · simp [is_dirty, set_dirty, load_dirty, assocSet_lookup_self]
  · intro hch
    simp [auto_detect_dirty, hcheck, hch]

/-- Claim C5 witness: the amended statement applied to the concrete
changed state. -/
theorem C5_witness :
    auto_detect_dirty curSnapEx stSnapEx "system_a" = (true, set_dirty stSnapEx "system_a" true) :=
  ((C5_auto_detect_amended curSnapEx stSnapEx "system_a" ⟨1, 1, 1⟩ (by decide)).1 (by decide)).1

/- ---- C3 ---- -/

/-- Sub-patcher environment in which both sub-patchers would succeed. -/
def envPatchOk : PatchEnv :=
  ⟨TaskResult.succ "ok" [], TaskResult.succ "ok" []⟩

/-- Claim C3 counterexample.  A toggle map containing the unknown key
super_magical_hack mapped to false is accepted: pipeline_patch returns
success, not an error — the validation only fires for truthy values
(if enabled and patch_name not in SUPPORTED_PATCHES), so the claimed
rejection regardless of the mapped value is false. -/
theorem C3_counterexample :
    (pipeline_patch defaultConfig [("super_magical_hack", false)] envPatchOk false).result.kind
        = TRKind.success ∧
    TRKind.success ≠ TRKind.error := by
  exact ⟨by decide, by decide⟩

/-- Claim C3 as amended (proved).  For every patch toggle map containing
some key outside the supported set whose mapped value is truthy,
pipeline_patch returns an error naming the first such key and invokes no
sub-patcher (and leaves the configuration untouched); unknown keys mapped
to falsy values are ignored. -/
theorem C3_unknown_toggle_amended (cfg : ProjectConfig)
    (patches : List (String × Bool)) (env : PatchEnv)
    (h : patches.any (fun pv => pv.2 && !(SUPPORTED_PATCHES.contains pv.1)) = true) :
    ∃ bad : String × Bool,
      patches.find? (fun pv => pv.2 && !(SUPPORTED_PATCHES.contains pv.1)) = some bad ∧
      bad.2 = true ∧
      SUPPORTED_PATCHES.contains bad.1 = false ∧
      pipeline_patch cfg patches env false =
        ⟨TaskResult.err ("Patch " ++ bad.1 ++ " chưa được hỗ trợ trong phiên bản này"),
         [], cfg, false⟩ := by
  have hsome : ∃ x, patches.find? (fun pv => pv.2 && !(SUPPORTED_PATCHES.contains pv.1)) = some x := by
    rw [← Option.isSome_iff_exists, List.find?_isSome]
    simpa using h
  obtain ⟨bad, hbad⟩ := hsome
  have hp := List.find?_some hbad
  have h2 : bad.2 = true ∧ !(SUPPORTED_PATCHES.contains bad.1) = true := by
    simpa [Bool.and_eq_true] using hp
  refine ⟨bad, hbad, h2.1, by simpa using h2.2, ?_⟩
  unfold pipeline_patch
  rw [hbad]
  rfl

/-- Claim C3 witness: the amended statement applied to a map carrying the
unknown key super_magical_hack with a truthy value. -/
theorem C3_witness :
    ∃ bad : String × Bool,
      [("super_magical_hack", true)].find?
          (fun pv => pv.2 && !(SUPPORTED_PATCHES.contains pv.1)) = some bad ∧
      bad.2 = true ∧
      SUPPORTED_PATCHES.contains bad.1 = false ∧
      pipeline_patch defaultConfig [("super_magical_hack", true)] envPatchOk false =
        ⟨TaskResult.err ("Patch " ++ bad.1 ++ " chưa được hỗ trợ trong phiên bản này"),
         [], defaultConfig, false⟩ :=
  C3_unknown_toggle_amended defaultConfig [("super_magical_hack", true)] envPatchOk (by decide)

/- ---- C10 ---- -/

/-- Claim C10 (confirmed).  pipeline_patch with an empty (or omitted,
which the source maps to empty) toggle map returns Success with the
message counting zero applied patches, invokes no sub-patcher, sets the
patched flag to true, and writes the PATCHED_OK.txt marker. -/
theorem C10_empty_patch_marks_patched (cfg : ProjectConfig) (env : PatchEnv) :
    pipeline_patch cfg [] env false =
      ⟨TaskResult.succ "Applied 0 patches" [], [], { cfg with patched := true }, true⟩ := by
  simp [pipeline_patch, toggleOn]
  rfl

/- ---- C4 ---- -/

/-- A configuration as it stands after import, extract and patch have all
succeeded (patched and built set). -/
def cfgAfterPatch : ProjectConfig :=
  ⟨true, true, true, true, some "in/rom.img", some "raw.img", some "partition_image"⟩

/-- Extract environment in which the input file resolves and the routed
engine succeeds. -/
def envExtractOk : ExtractEnv :=
  ⟨true, TaskResult.succ "Extracted" []⟩

/-- Claim C4 counterexample.  Re-running extract successfully on a project
whose patched and built flags are true leaves both flags at true: the
step does not set them back to false as claimed (it persists only
extracted=true). -/
theorem C4_counterexample :
    (pipeline_extract cfgAfterPatch envExtractOk false).result.kind = TRKind.success ∧
    (pipeline_extract cfgAfterPatch envExtractOk false).config.patched = true ∧
    (pipeline_extract cfgAfterPatch envExtractOk false).config.built = true := by
  exact ⟨by decide, by decide, by decide⟩

/-- Claim C4 as amended (proved).  After a successful pipeline_extract run
the configuration equals the previous configuration with only extracted
set to true: the step sets only its own progress flag, and the patched
and built flags retain their previous values (they are not invalidated). -/
theorem C4_extract_flags_amended (cfg : ProjectConfig) (env : ExtractEnv)
    (hin : env.inputAvailable = true) (hok : env.engineResult.ok = true) :
    pipeline_extract cfg env false =
      ⟨env.engineResult, { cfg with extracted := true }, true⟩ ∧
    ({ cfg with extracted := true } : ProjectConfig).patched = cfg.patched ∧
    ({ cfg with extracted := true } : ProjectConfig).built = cfg.built ∧
    ({ cfg with extracted := true } : ProjectConfig).imported = cfg.imported := by
  refine ⟨?_, rfl, rfl, rfl⟩
  simp [pipeline_extract, hin, hok]

/-- Claim C4 witness: the amended statement applied to the post-patch
configuration and a succeeding engine. -/
theorem C4_witness :
    pipeline_extract cfgAfterPatch envExtractOk false =
      ⟨envExtractOk.engineResult, { cfgAfterPatch with extracted := true }, true⟩ :=
  (C4_extract_flags_amended cfgAfterPatch envExtractOk rfl rfl).1

/- ---- C9 ---- -/

/-- Claim C9 (confirmed).  If the cancellation token becomes set at any of
the checks performed during the chunked copy (check indices 1 through
1 + chunksCount content, i.e. after the step has started copying), then
the import step returns Cancelled, the partially written destination file
is removed (destState = none), and the configuration — in particular its
field named imported — is unchanged. -/
theorem C9_import_cancel_cleanup (cfg : ProjectConfig) (src : FileModel)
    (content : List Nat) (j : Nat)
    (hsrc : src.fileExists = true)
    (h1 : 1 ≤ j) (h2 : j ≤ 1 + chunksCount content) :
    pipeline_import cfg src content (some j) = ⟨TaskResult.cancelledR, none, cfg⟩ := by
  have h0 : cancelCheck (some j) 0 = false := by
    simp only [cancelCheck, decide_eq_false_iff_not]
    omega
  have hloop : copyLoop (some j) 1 [] content = none := by
    apply copyLoop_cancel_aux content.length content j 1 [] le_rfl h1
    omega
  simp [pipeline_import, h0, hsrc, hloop]

/-- Claim C9 witness: a cancel token set from the first in-loop check on a
three-byte source leads to a Cancelled result with no destination file
and an unchanged configuration. -/
theorem C9_witness :
    pipeline_import defaultConfig ⟨true, [0, 0, 0, 0], "boot.img"⟩ [1, 2, 3] (some 1) =
      ⟨TaskResult.cancelledR, none, defaultConfig⟩ :=
  C9_import_cancel_cleanup defaultConfig ⟨true, [0, 0, 0, 0], "boot.img"⟩ [1, 2, 3] 1
    rfl le_rfl (Nat.le_add_right 1 (chunksCount [1, 2, 3]))

/- ---- C6 ---- -/

/-- Claim C6 (confirmed against the spec-modelled AVB patcher; the
implementation avb_manager.py is not under src/).  Every file the AVB
patcher produces — whether the signing tool succeeded, failed, or
produced nothing (the AVB0 fallback path) — has exactly the size of the
original input file, zero-padded to that size. -/
theorem C6_avb_size_preserved (orig : List Nat) (tool : AvbToolOutcome) :
    (patch_one_vbmeta orig tool).length = orig.length := by
  unfold patch_one_vbmeta
  exact pad_to_size_length _ _

/- ---- C1 ---- -/

/-- Concrete repack inputs for claims C1 and C2: metadata for an ext4
partition system_a, a clean dirty state with a saved snapshot, original
image bytes, and a tool environment in which make_ext4fs succeeds and
writes bytes different from the original. -/
def metaSysA : JsonFile RepackMeta :=
  JsonFile.parsed ⟨some "system_a", some "ext4", some 16⟩

/-- Tool environment for the raw-output run: make_ext4fs available and
succeeding with output bytes BUILT, no sparse tool involvement. -/
def envBuildRaw : RepackEnv :=
  ⟨some "make_ext4fs", none, none, 0, some [66, 85, 73, 76, 84], 0, none, 0, none⟩

/-- The original partition image bytes (ORIG), distinct from the builder
output. -/
def origBytesEx : List Nat :=
  [79, 82, 73, 71]

/-- Dirty-tracker state in which system_a is clean with a saved
snapshot. -/
def trackerCleanEx : TrackerState :=
  ⟨JsonFile.parsed [("system_a", false)], JsonFile.parsed [("system_a", ⟨3, 10, 100⟩)]⟩

/-- Claim C1 (code_bug evidence).  For a clean partition (dirty flag
false), an existing original image, and matching sparseness
(original raw, output raw), repack_partition_image still invokes the
filesystem build tool make_ext4fs and writes the builder output — not a
byte-identical copy of the original — to out/system_a_patched.img, and
creates nothing at the copy-through path out/system_a_patched.raw.img.
This contradicts the claim and the repository's own
test_copy_through_partition.py (test_clean_raw_to_raw_copy). -/
theorem C1_clean_copy_through_violated :
    is_dirty trackerCleanEx.dirtyFile "system_a" = false ∧
    (repack_partition_image metaSysA true envBuildRaw (some "system_a") false
        trackerCleanEx (some origBytesEx)).result.kind = TRKind.success ∧
    (repack_partition_image metaSysA true envBuildRaw (some "system_a") false
        trackerCleanEx (some origBytesEx)).toolsInvoked = ["make_ext4fs"] ∧
    (repack_partition_image metaSysA true envBuildRaw (some "system_a") false
        trackerCleanEx (some origBytesEx)).files.lookup "out/system_a_patched.raw.img" = none ∧
    ¬ ((repack_partition_image metaSysA true envBuildRaw (some "system_a") false
        trackerCleanEx (some origBytesEx)).files.lookup "out/system_a_patched.img"
          = some origBytesEx) := by
  refine ⟨by decide, by decide, by decide, by decide, by decide⟩

/- ---- C2 ---- -/

/-- Tool environment for the sparse-output run: make_ext4fs succeeds and
img2simg is available, succeeds, and writes sparse bytes. -/
def envBuildSparse : RepackEnv :=
  ⟨some "make_ext4fs", none, some "img2simg", 0, some [7, 7], 0, none, 0,
   some [0x3a, 0xff, 0x26, 0xed]⟩

/-- Claim C2 (code_bug evidence).  On a successful repack the artifact is
out/system_a_patched.img when output_sparse is false (not the claimed
system_a_patched.raw.img), and when output_sparse is true the engine
creates and reports out/system_a_patched_sparse.img — a file the claim
(and the repository's own test_repack_partition_contract.py) says must
never exist. -/
theorem C2_naming_contract_violated :
    (repack_partition_image metaSysA true envBuildRaw (some "system_a") false
        trackerCleanEx (some origBytesEx)).result.artifacts = ["out/system_a_patched.img"] ∧
    (repack_partition_image metaSysA true envBuildRaw (some "system_a") false
        trackerCleanEx (some origBytesEx)).files.lookup "out/system_a_patched.raw.img" = none ∧
    (repack_partition_image metaSysA true envBuildSparse (some "system_a") true
        trackerCleanEx (some origBytesEx)).result.kind = TRKind.success ∧
    (repack_partition_image metaSysA true envBuildSparse (some "system_a") true
        trackerCleanEx (some origBytesEx)).result.artifacts
          = ["out/system_a_patched_sparse.img"] ∧
    (repack_partition_image metaSysA true envBuildSparse (some "system_a") true
        trackerCleanEx (some origBytesEx)).files.lookup "out/system_a_patched_sparse.img"
          = some [0x3a, 0xff, 0x26, 0xed] := by
  refine ⟨by decide, by decide, by decide, by decide, by decide⟩

end RkRomKitchen
